import Mathlib

/-!
Verification development for the platformer game server
(`server/src/game.ts` together with the shared constants in
`shared/src/index.ts` and the tile alphabet in `shared/src/map.ts`).

Positions and velocities are tile-fractional numbers; we embed them as
exact rationals (`ℚ`).  Wall-clock timestamps (`Date.now()` milliseconds)
are embedded as integers and every function that reads the clock receives
the current time `now` as an argument.  The randomness of
`findSpawnLocation` is externalized: callers of the respawn path receive
the chosen spawn position as an explicit argument, and the rejection
sampling itself is modelled over an explicit list of random picks.
-/

namespace Platformer

/-- Tile alphabet from `shared/src/map.ts` (`TILE`). -/
inductive Tile where
  | empty
  | floor
  | ladder
  | ladderTop
  | ladderUp
  | ladderCross
deriving DecidableEq, Repr

/-- In-memory map: `width`, `height` and `tiles[y][x]`, logical row 0 at
the bottom (the loader stores the file lines reversed). -/
structure MapData where
  width : ℕ
  height : ℕ
  tiles : List (List Tile)
deriving DecidableEq, Repr

/-- Contact states of a player (`PlayerState` in `game.ts`). -/
inductive PState where
  | ground
  | ladder
  | air
deriving DecidableEq, Repr

/-- Facing direction of a player. -/
inductive Dir where
  | left
  | right
deriving DecidableEq, Repr

/-- Player record (`Player` in `game.ts`); `name` and `colorIndex` are
dropped as no simulation rule reads them, `id` is a number standing for
the nanoid string. -/
structure Player where
  id : ℕ
  feetX : ℚ
  feetY : ℚ
  vx : ℚ
  vy : ℚ
  hp : ℤ
  frags : ℕ
  states : List PState
  spawnProtectedUntil : ℤ
  canFireAt : ℤ
  fallingFromY : Option ℚ
  direction : Dir
deriving DecidableEq, Repr

/-- Projectile record (`Projectile` in `game.ts`), id dropped. -/
structure Projectile where
  feetX : ℚ
  feetY : ℚ
  vx : ℚ
  vy : ℚ
  ownerId : ℕ
  createdAt : ℤ
deriving DecidableEq, Repr

/-- Per-tick intent record (`PlayerInput` in `game.ts`). -/
structure PlayerInput where
  moveLeft : Bool := false
  moveRight : Bool := false
  moveUp : Bool := false
  moveDown : Bool := false
  fire : Bool := false
deriving DecidableEq, Repr

/-- `CONSTANTS.tickHz`. -/
def tickHz : ℚ := 20

/-- `CONSTANTS.speeds.move` (`MOVE_SPEED`). -/
def MOVE_SPEED : ℚ := 4

/-- `CONSTANTS.speeds.ladder` (`LADDER_SPEED`). -/
def LADDER_SPEED : ℚ := 2

/-- `GRAVITY` (tiles/s²). -/
def GRAVITY : ℚ := 25

/-- `CONSTANTS.speeds.projectile`. -/
def projectileSpeed : ℚ := 12

/-- `CONSTANTS.spawnProtectionMs`. -/
def spawnProtectionMs : ℤ := 3000

/-- `CONSTANTS.fireRatePerSec`. -/
def fireRatePerSec : ℤ := 4

/-- `hasState` helper from `game.ts` (`player.states.includes(state)`). -/
def hasState (p : Player) (s : PState) : Bool :=
  p.states.contains s

/-- `tileAt` from `game.ts`: truncating lookup that returns `empty`
outside the grid (both bound checks of the source are kept). -/
def tileAt (m : MapData) (x y : ℚ) : Tile :=
  if x < 0 ∨ y < 0 ∨ (m.width : ℚ) ≤ x ∨ (m.height : ℚ) ≤ y then Tile.empty
  else
    let tileY := ⌊y⌋
    let tileX := ⌊x⌋
    if tileY < 0 ∨ (m.height : ℤ) ≤ tileY ∨ tileX < 0 ∨ (m.width : ℤ) ≤ tileX then Tile.empty
    else (m.tiles.getD tileY.toNat []).getD tileX.toNat Tile.empty

/-- `isGroundTile` from `game.ts`. -/
def isGroundTile : Tile → Bool
  | Tile.floor => true
  | Tile.ladderTop => true
  | Tile.ladderUp => true
  | Tile.ladderCross => true
  | _ => false

/-- `isPlayerOnGround`: ground-capable feet tile and the feet settled
within 0.1 of the cell's integer boundary. -/
def isPlayerOnGround (m : MapData) (p : Player) : Bool :=
  isGroundTile (tileAt m p.feetX p.feetY) && decide (p.feetY - ⌊p.feetY⌋ < 1/10)

/-- `isPlayerOnLadder`: any ladder-capable feet tile. -/
def isPlayerOnLadder (m : MapData) (p : Player) : Bool :=
  match tileAt m p.feetX p.feetY with
  | Tile.ladderTop => true
  | Tile.ladder => true
  | Tile.ladderCross => true
  | Tile.ladderUp => true
  | _ => false

/-- `canMoveDown` from `game.ts`: on `LADDER_UP` a descent is granted only
if the position one nominal tick of descent lower stays in the same grid
row; otherwise descent needs a `_`, `H` or `X` tile. -/
def canMoveDown (m : MapData) (p : Player) : Bool :=
  if tileAt m p.feetX p.feetY = Tile.ladderUp then
    decide (⌊p.feetY⌋ ≤ ⌊p.feetY - LADDER_SPEED / tickHz⌋)
  else
    decide (tileAt m p.feetX p.feetY = Tile.ladderTop ∨
      tileAt m p.feetX p.feetY = Tile.ladder ∨ tileAt m p.feetX p.feetY = Tile.ladderCross)

/-- `canMoveUp` from `game.ts`. -/
def canMoveUp (m : MapData) (p : Player) : Bool :=
  match tileAt m p.feetX p.feetY with
  | Tile.ladderUp => true
  | Tile.ladder => true
  | Tile.ladderCross => true
  | _ => false

/-- `canMoveLeft` from `game.ts`. -/
def canMoveLeft (m : MapData) (p : Player) : Bool :=
  isPlayerOnGround m p

/-- `canMoveRight` from `game.ts`. -/
def canMoveRight (m : MapData) (p : Player) : Bool :=
  isPlayerOnGround m p

/-- `handleHorizontalMovement` from `game.ts`: direction always updates,
`vx` is set only when the move is granted. -/
def handleHorizontalMovement (m : MapData) (p : Player) (input : PlayerInput) : Player :=
  let p0 := { p with vx := 0 }
  if input.moveLeft then
    let p1 := { p0 with direction := Dir.left }
    if canMoveLeft m p1 then { p1 with vx := -MOVE_SPEED } else p1
  else if input.moveRight then
    let p1 := { p0 with direction := Dir.right }
    if canMoveRight m p1 then { p1 with vx := MOVE_SPEED } else p1
  else p0

/-- `handleVerticalMovement` from `game.ts`: gravity in air, otherwise
`vy` is zeroed and exclusive up/down intents are gated by the climb
permissions. -/
def handleVerticalMovement (m : MapData) (p : Player) (input : PlayerInput) (dt : ℚ) : Player :=
  if hasState p PState.air then { p with vy := p.vy - GRAVITY * dt }
  else
    let p0 := { p with vy := 0 }
    if input.moveUp && !input.moveDown then
      if canMoveUp m p0 then { p0 with vy := LADDER_SPEED } else p0
    else if input.moveDown && !input.moveUp then
      if canMoveDown m p0 then { p0 with vy := -LADDER_SPEED } else p0
    else p0

/-- `classifyPlayerState` from `game.ts`: ground is pushed first, then
ladder; air exactly when the list would be empty. -/
def classifyPlayerState (m : MapData) (p : Player) : List PState :=
  let newStates :=
    (if isPlayerOnGround m p then [PState.ground] else []) ++
      (if isPlayerOnLadder m p then [PState.ladder] else [])
  if newStates = [] then [PState.air] else newStates

/-- Step 4 of `updatePlayer`: store the freshly classified state set. -/
def reclassify (m : MapData) (p : Player) : Player :=
  { p with states := classifyPlayerState m p }

/-- Steps 2–3 of `updatePlayer`: Euler integration of the position and
independent clamping of both feet coordinates to the map-boundary box. -/
def integratePosition (m : MapData) (p : Player) (dt : ℚ) : Player :=
  let newFeetX := p.feetX + p.vx * dt
  let newFeetY := p.feetY + p.vy * dt
  let minFeetX : ℚ := 1/2
  let maxFeetX : ℚ := (m.width : ℚ) - 1/2
  let minFeetY : ℚ := 1/2
  let maxFeetY : ℚ := (m.height : ℚ)
  { p with feetX := max minFeetX (min maxFeetX newFeetX),
           feetY := max minFeetY (min maxFeetY newFeetY) }

/-- Row indexes visited by the for-loop of step 6 of `updatePlayer`:
`startTileY, startTileY - 1, …, endTileY` (empty when
`startTileY < endTileY`). -/
def rowsToCheck (startTileY endTileY : ℤ) : List ℤ :=
  (List.range (startTileY - endTileY + 1).toNat).map fun i => startTileY - (i : ℤ)

/-- Loop body of step 6 of `updatePlayer`: return the first ground-capable
row of the list actually crossed by the movement from `startY` down to
`endY`. -/
def findFloorHitRows (m : MapData) (feetX startY endY : ℚ) : List ℤ → Option ℤ
  | [] => none
  | checkY :: rest =>
    if isGroundTile (tileAt m feetX (checkY : ℚ)) ∧ (checkY : ℚ) < startY ∧ endY ≤ (checkY : ℚ) then
      some checkY
    else findFloorHitRows m feetX startY endY rest

/-- Step 6 of `updatePlayer`: scan the integer rows between
`⌊startY⌋` and `⌊endY⌋` (inclusive, downward) for the first crossed
ground-capable row. -/
def findFloorHit (m : MapData) (feetX startY endY : ℚ) : Option ℤ :=
  findFloorHitRows m feetX startY endY (rowsToCheck ⌊startY⌋ ⌊endY⌋)

/-- Fall-damage test of step 6 of `updatePlayer`:
`p.fallingFromY !== null && p.fallingFromY - p.feetY > 1.0`. -/
def fallDeathCheck (p : Player) : Bool :=
  match p.fallingFromY with
  | some f => decide (1 < f - p.feetY)
  | none => false

/-- `findSpawnLocation` from `game.ts`, with the stream of random cell
picks passed explicitly; the empty list plays the exhausted-attempts
fallback to the map center. -/
def findSpawnLocation (m : MapData) : List (ℕ × ℕ) → ℚ × ℚ
  | [] => ((m.width : ℚ) / 2, (m.height : ℚ) / 2)
  | (x, y) :: rest =>
    if isGroundTile (tileAt m ((x : ℚ) + 1/2) (y : ℚ)) then ((x : ℚ) + 1/2, (y : ℚ))
    else findSpawnLocation m rest

/-- `respawnPlayer` from `game.ts`, with the chosen spawn position passed
explicitly: full heal, zeroed velocity, fresh protection window, Ground
state then reclassification at the new position. -/
def respawnPlayer (m : MapData) (now : ℤ) (spawn : ℚ × ℚ) (p : Player) : Player :=
  let p1 := { p with feetX := spawn.1, feetY := spawn.2, vx := 0, vy := 0, hp := 100,
                     fallingFromY := none,
                     spawnProtectedUntil := now + spawnProtectionMs,
                     states := [PState.ground] }
  { p1 with states := classifyPlayerState m p1 }

/-- `createProjectile` from `game.ts`: spawned 0.6 ahead of the feet at
chest level, strictly horizontal velocity towards the facing. -/
def createProjectile (now : ℤ) (player : Player) : Projectile :=
  let direction : ℚ := if player.direction = Dir.left then -1 else 1
  { feetX := player.feetX + direction * (3/5)
    feetY := player.feetY - 3/10
    vx := direction * projectileSpeed
    vy := 0
    ownerId := player.id
    createdAt := now }

/-- Step 7 of `updatePlayer`: start tracking the fall height on entering
air, clear it when supported. -/
def trackFalling (p : Player) : Player :=
  if hasState p PState.air ∧ p.fallingFromY = none then { p with fallingFromY := some p.feetY }
  else if hasState p PState.ground ∨ hasState p PState.ladder then { p with fallingFromY := none }
  else p

/-- How `updatePlayer` returned: normally, or through one of the two
respawn paths (`return` statements of steps 5 and 6). -/
inductive UpdateExit where
  | normal
  | boundaryRespawn
  | fallDeath
deriving DecidableEq, Repr

/-- Result of one `updatePlayer` call: the mutated player, which path
returned, and the projectile created by step 8 (if any). -/
structure UpdateResult where
  player : Player
  exit : UpdateExit
  fired : Option Projectile
deriving DecidableEq, Repr

/-- Step 8 of `updatePlayer`: fire iff requested and the cooldown
deadline has passed; `1000 / CONSTANTS.fireRatePerSec = 250` ms. -/
def fireStep (now : ℤ) (p : Player) (input : PlayerInput) : UpdateResult :=
  if input.fire ∧ p.canFireAt ≤ now then
    ⟨{ p with canFireAt := now + 1000 / fireRatePerSec }, UpdateExit.normal,
      some (createProjectile now p)⟩
  else ⟨p, UpdateExit.normal, none⟩

/-- Step 6 onward of `updatePlayer`: landing detection for falling
players (`p2` is the pre-integration player, `p4` the clamped and
reclassified one), then fall tracking and the fire step. -/
def landingStep (m : MapData) (now : ℤ) (spawn : ℚ × ℚ) (p2 p4 : Player) (input : PlayerInput) :
    UpdateResult :=
  if hasState p4 PState.air ∧ p4.vy < 0 then
    match findFloorHit m p4.feetX p2.feetY p4.feetY with
    | some floorHitY =>
      if fallDeathCheck p4 then
        ⟨respawnPlayer m now spawn p4, UpdateExit.fallDeath, none⟩
      else
        fireStep now
          (trackFalling
            { p4 with feetY := (floorHitY : ℚ), vy := 0, states := [PState.ground],
                      fallingFromY := none }) input
    | none => fireStep now (trackFalling p4) input
  else fireStep now (trackFalling p4) input

/-- Steps 2–8 of `updatePlayer`, applied to the player `p2` that already
carries this tick's velocities: integrate and clamp, reclassify, then
either the bottom-boundary respawn (step 5) or the landing pipeline. -/
def updatePlayerAfterMove (m : MapData) (now : ℤ) (spawn : ℚ × ℚ) (p2 : Player)
    (input : PlayerInput) (dt : ℚ) : UpdateResult :=
  if p2.feetY + p2.vy * dt ≤ 1/2 ∧ (reclassify m (integratePosition m p2 dt)).vy < 0 then
    ⟨respawnPlayer m now spawn (reclassify m (integratePosition m p2 dt)),
      UpdateExit.boundaryRespawn, none⟩
  else landingStep m now spawn p2 (reclassify m (integratePosition m p2 dt)) input

/-- `updatePlayer` from `game.ts`: intents, integration, clamping,
reclassification, bottom-boundary respawn, continuous landing detection
with fall damage, fall tracking, and the fire step. -/
def updatePlayer (m : MapData) (now : ℤ) (spawn : ℚ × ℚ) (p : Player) (input : PlayerInput)
    (dt : ℚ) : UpdateResult :=
  updatePlayerAfterMove m now spawn
    (handleVerticalMovement m (handleHorizontalMovement m p input) input dt) input dt

/-- `hitPlayer` from `game.ts`, with the shooter lookup externalized:
spawn protection swallows the hit, otherwise 10 damage, and at hp ≤ 0 the
shooter (if still connected) gets a frag and the victim respawns. -/
def hitPlayer (m : MapData) (now : ℤ) (spawn : ℚ × ℚ) (player : Player)
    (shooter : Option Player) : Player × Option Player :=
  if now < player.spawnProtectedUntil then (player, shooter)
  else
    let player1 := { player with hp := player.hp - 10 }
    if player1.hp ≤ 0 then
      (respawnPlayer m now spawn player1, shooter.map fun s => { s with frags := s.frags + 1 })
    else (player1, shooter)

/-- Position integration of `updateProjectiles`. -/
def moveProjectile (pr : Projectile) (dt : ℚ) : Projectile :=
  { pr with feetX := pr.feetX + pr.vx * dt, feetY := pr.feetY + pr.vy * dt }

/-- Map-boundary removal test of `updateProjectiles`. -/
def projectileOutOfBounds (m : MapData) (pr : Projectile) : Bool :=
  decide (pr.feetX < 0 ∨ (m.width : ℚ) < pr.feetX ∨ pr.feetY < 0 ∨ (m.height : ℚ) < pr.feetY)

/-- Hit scan of `updateProjectiles`: first non-owner player whose
feet-derived center is within 0.4 of the projectile on both axes. -/
def findHitPlayer (players : List Player) (pr : Projectile) : Option Player :=
  players.find? fun player =>
    player.id != pr.ownerId &&
      decide (|player.feetX - pr.feetX| < 2/5 ∧ |player.feetY - 1/2 - pr.feetY| < 2/5)

/-- What `updateProjectiles` decides about one projectile in one tick. -/
inductive ProjOutcome where
  | removedBoundary
  | hitTarget (target : Player)
  | removedExpired
  | kept
deriving DecidableEq, Repr

/-- Per-projectile body of `updateProjectiles`: integrate, then remove on
boundary exit, on the first player overlap (after calling `hitPlayer`),
or after the 3000 ms lifetime; otherwise keep. -/
def stepProjectile (m : MapData) (now : ℤ) (players : List Player) (pr : Projectile)
    (dt : ℚ) : Projectile × ProjOutcome :=
  if projectileOutOfBounds m (moveProjectile pr dt) then
    (moveProjectile pr dt, ProjOutcome.removedBoundary)
  else
    match findHitPlayer players (moveProjectile pr dt) with
    | some target => (moveProjectile pr dt, ProjOutcome.hitTarget target)
    | none =>
      if 3000 < now - (moveProjectile pr dt).createdAt then
        (moveProjectile pr dt, ProjOutcome.removedExpired)
      else (moveProjectile pr dt, ProjOutcome.kept)

/-- Iterated projectile ticks at the given wall-clock times: `some pr`
when the projectile is still alive after all of them. -/
def runProjectile (m : MapData) (players : List Player) (dt : ℚ) :
    List ℤ → Projectile → Option Projectile
  | [], pr => some pr
  | now :: rest, pr =>
    match stepProjectile m now players pr dt with
    | (pr1, ProjOutcome.kept) => runProjectile m players dt rest pr1
    | _ => none

/-- `CONSTANTS.lethalVelocity` from `shared/src/index.ts` (the impact
speed threshold of the impact-velocity fall-damage model). -/
def lethalVelocity : ℚ := 8

/-- Empty intent record. -/
def noInput : PlayerInput := {}

/-- Intent record holding only a fire request. -/
def fireInput : PlayerInput := { fire := true }

/-- Intent record holding only a move-right request. -/
def rightInput : PlayerInput := { moveRight := true }

/-- Intent record with both climb directions requested at once. -/
def bothInput : PlayerInput := { moveUp := true, moveDown := true }

/-- Concrete 3 × 5 map: a single floor tile in logical row 2, column 1. -/
def m1 : MapData :=
  ⟨3, 5, [[Tile.empty, Tile.empty, Tile.empty],
          [Tile.empty, Tile.empty, Tile.empty],
          [Tile.empty, Tile.floor, Tile.empty],
          [Tile.empty, Tile.empty, Tile.empty],
          [Tile.empty, Tile.empty, Tile.empty]]⟩

/-- Falling player above the floor tile of `m1`: started falling at
`feetY = 3.5`, currently at `feetY = 2.3` with `vy = -5`. -/
def pC1 : Player :=
  { id := 1, feetX := 3/2, feetY := 23/10, vx := 0, vy := -5, hp := 100, frags := 0,
    states := [PState.air], spawnProtectedUntil := 0, canFireAt := 0,
    fallingFromY := some (7/2), direction := Dir.right }

/-- The pre-integration stage of `updatePlayer` on `pC1`. -/
def p2C1 : Player := handleVerticalMovement m1 (handleHorizontalMovement m1 pC1 noInput) noInput (1/20)

/-- The clamped and reclassified stage of `updatePlayer` on `pC1`. -/
def p4C1 : Player := reclassify m1 (integratePosition m1 p2C1 (1/20))

/-- Concrete 12 × 5 map: a single floor tile in logical row 2, column 8. -/
def m2 : MapData :=
  ⟨12, 5, [List.replicate 12 Tile.empty, List.replicate 12 Tile.empty,
           [Tile.empty, Tile.empty, Tile.empty, Tile.empty, Tile.empty, Tile.empty,
            Tile.empty, Tile.empty, Tile.floor, Tile.empty, Tile.empty, Tile.empty],
           List.replicate 12 Tile.empty, List.replicate 12 Tile.empty]⟩

/-- The 14 tick instants of the tunneling scenario (50 ms apart). -/
def ticksC2 : List ℤ :=
  [50, 100, 150, 200, 250, 300, 350, 400, 450, 500, 550, 600, 650, 700]

/-- Projectile of the tunneling scenario: fired rightward from
`(5.0, 2.3)` at 6 tiles/s against the floor tile of `m2` at column 8. -/
def prC2 : Projectile :=
  { feetX := 5, feetY := 23/10, vx := 6, vy := 0, ownerId := 1, createdAt := 0 }

/-- Concrete 3 × 3 map whose middle logical row is all floor. -/
def m3 : MapData :=
  ⟨3, 3, [List.replicate 3 Tile.empty, List.replicate 3 Tile.floor,
          List.replicate 3 Tile.empty]⟩

/-- Player standing on the floor row of `m3`, still inside a spawn
protection window that ends at t = 3000 ms. -/
def pC3 : Player :=
  { id := 1, feetX := 3/2, feetY := 1, vx := 0, vy := 0, hp := 100, frags := 0,
    states := [PState.ground], spawnProtectedUntil := 3000, canFireAt := 0,
    fallingFromY := none, direction := Dir.right }

/-- Unprotected player standing near the right map boundary of `m3`. -/
def pC7 : Player := { pC3 with feetX := 12/5, spawnProtectedUntil := 0 }

/-- Concrete 3 × 3 map: a single `LadderUp` tile in logical row 1. -/
def m5 : MapData :=
  ⟨3, 3, [List.replicate 3 Tile.empty, [Tile.empty, Tile.ladderUp, Tile.empty],
          List.replicate 3 Tile.empty]⟩

/-- Player mid-climb on the `LadderUp` tile of `m5` (fractional feet
offset 0.5, not settled). -/
def pC5 : Player := { pC3 with spawnProtectedUntil := 0, feetY := 3/2 }

/-- Player just above the row boundary of the `LadderUp` tile of `m5`. -/
def pC6 : Player := { pC3 with spawnProtectedUntil := 0, feetY := 21/20 }

/-- Spawn-protected target standing on the floor row of `m3`
(protection window ends at t = 5000 ms). -/
def tC8 : Player :=
  { id := 2, feetX := 3/2, feetY := 1, vx := 0, vy := 0, hp := 100, frags := 0,
    states := [PState.ground], spawnProtectedUntil := 5000, canFireAt := 0,
    fallingFromY := none, direction := Dir.left }

/-- The shooter owning `prC8`. -/
def sC8 : Player :=
  { id := 1, feetX := 1/2, feetY := 1, vx := 0, vy := 0, hp := 100, frags := 3,
    states := [PState.ground], spawnProtectedUntil := 0, canFireAt := 0,
    fallingFromY := none, direction := Dir.right }

/-- Projectile of `sC8` about to overlap `tC8` within the tick. -/
def prC8 : Projectile :=
  { feetX := 21/20, feetY := 1/2, vx := 2, vy := 0, ownerId := 1, createdAt := 0 }

@[simp] theorem handleHorizontalMovement_feetX (m : MapData) (p : Player) (input : PlayerInput) :
    (handleHorizontalMovement m p input).feetX = p.feetX := by
  simp only [handleHorizontalMovement]
  repeat' split
  all_goals rfl

@[simp] theorem handleHorizontalMovement_feetY (m : MapData) (p : Player) (input : PlayerInput) :
    (handleHorizontalMovement m p input).feetY = p.feetY := by
  simp only [handleHorizontalMovement]
  repeat' split
  all_goals rfl

@[simp] theorem handleHorizontalMovement_vy (m : MapData) (p : Player) (input : PlayerInput) :
    (handleHorizontalMovement m p input).vy = p.vy := by
  simp only [handleHorizontalMovement]
  repeat' split
  all_goals rfl

@[simp] theorem handleHorizontalMovement_states (m : MapData) (p : Player) (input : PlayerInput) :
    (handleHorizontalMovement m p input).states = p.states := by
  simp only [handleHorizontalMovement]
  repeat' split
  all_goals rfl

@[simp] theorem handleHorizontalMovement_hp (m : MapData) (p : Player) (input : PlayerInput) :
    (handleHorizontalMovement m p input).hp = p.hp := by
  simp only [handleHorizontalMovement]
  repeat' split
  all_goals rfl

@[simp] theorem handleHorizontalMovement_fallingFromY (m : MapData) (p : Player)
    (input : PlayerInput) :
    (handleHorizontalMovement m p input).fallingFromY = p.fallingFromY := by
  simp only [handleHorizontalMovement]
  repeat' split
  all_goals rfl

@[simp] theorem handleVerticalMovement_feetX (m : MapData) (p : Player) (input : PlayerInput)
    (dt : ℚ) : (handleVerticalMovement m p input dt).feetX = p.feetX := by
  simp only [handleVerticalMovement]
  repeat' split
  all_goals rfl

@[simp] theorem handleVerticalMovement_feetY (m : MapData) (p : Player) (input : PlayerInput)
    (dt : ℚ) : (handleVerticalMovement m p input dt).feetY = p.feetY := by
  simp only [handleVerticalMovement]
  repeat' split
  all_goals rfl

@[simp] theorem handleVerticalMovement_vx (m : MapData) (p : Player) (input : PlayerInput)
    (dt : ℚ) : (handleVerticalMovement m p input dt).vx = p.vx := by
  simp only [handleVerticalMovement]
  repeat' split
  all_goals rfl

@[simp] theorem handleVerticalMovement_states (m : MapData) (p : Player) (input : PlayerInput)
    (dt : ℚ) : (handleVerticalMovement m p input dt).states = p.states := by
  simp only [handleVerticalMovement]
  repeat' split
  all_goals rfl

@[simp] theorem handleVerticalMovement_hp (m : MapData) (p : Player) (input : PlayerInput)
    (dt : ℚ) : (handleVerticalMovement m p input dt).hp = p.hp := by
  simp only [handleVerticalMovement]
  repeat' split
  all_goals rfl

@[simp] theorem handleVerticalMovement_fallingFromY (m : MapData) (p : Player)
    (input : PlayerInput) (dt : ℚ) :
    (handleVerticalMovement m p input dt).fallingFromY = p.fallingFromY := by
  simp only [handleVerticalMovement]
  repeat' split
  all_goals rfl

@[simp] theorem integratePosition_vx (m : MapData) (p : Player) (dt : ℚ) :
    (integratePosition m p dt).vx = p.vx := rfl

@[simp] theorem integratePosition_vy (m : MapData) (p : Player) (dt : ℚ) :
    (integratePosition m p dt).vy = p.vy := rfl

@[simp] theorem integratePosition_states (m : MapData) (p : Player) (dt : ℚ) :
    (integratePosition m p dt).states = p.states := rfl

@[simp] theorem integratePosition_hp (m : MapData) (p : Player) (dt : ℚ) :
    (integratePosition m p dt).hp = p.hp := rfl

@[simp] theorem integratePosition_fallingFromY (m : MapData) (p : Player) (dt : ℚ) :
    (integratePosition m p dt).fallingFromY = p.fallingFromY := rfl

@[simp] theorem reclassify_feetX (m : MapData) (p : Player) :
    (reclassify m p).feetX = p.feetX := rfl

@[simp] theorem reclassify_feetY (m : MapData) (p : Player) :
    (reclassify m p).feetY = p.feetY := rfl

@[simp] theorem reclassify_vx (m : MapData) (p : Player) :
    (reclassify m p).vx = p.vx := rfl

@[simp] theorem reclassify_vy (m : MapData) (p : Player) :
    (reclassify m p).vy = p.vy := rfl

@[simp] theorem reclassify_hp (m : MapData) (p : Player) :
    (reclassify m p).hp = p.hp := rfl

@[simp] theorem reclassify_fallingFromY (m : MapData) (p : Player) :
    (reclassify m p).fallingFromY = p.fallingFromY := rfl

@[simp] theorem trackFalling_feetX (p : Player) : (trackFalling p).feetX = p.feetX := by
  simp only [trackFalling]
  repeat' split
  all_goals rfl

@[simp] theorem trackFalling_feetY (p : Player) : (trackFalling p).feetY = p.feetY := by
  simp only [trackFalling]
  repeat' split
  all_goals rfl

@[simp] theorem trackFalling_vx (p : Player) : (trackFalling p).vx = p.vx := by
  simp only [trackFalling]
  repeat' split
  all_goals rfl

@[simp] theorem trackFalling_vy (p : Player) : (trackFalling p).vy = p.vy := by
  simp only [trackFalling]
  repeat' split
  all_goals rfl

@[simp] theorem trackFalling_states (p : Player) : (trackFalling p).states = p.states := by
  simp only [trackFalling]
  repeat' split
  all_goals rfl

@[simp] theorem trackFalling_hp (p : Player) : (trackFalling p).hp = p.hp := by
  simp only [trackFalling]
  repeat' split
  all_goals rfl

@[simp] theorem fireStep_player_feetX (now : ℤ) (p : Player) (input : PlayerInput) :
    (fireStep now p input).player.feetX = p.feetX := by
  simp only [fireStep]
  repeat' split
  all_goals rfl

@[simp] theorem fireStep_player_feetY (now : ℤ) (p : Player) (input : PlayerInput) :
    (fireStep now p input).player.feetY = p.feetY := by
  simp only [fireStep]
  repeat' split
  all_goals rfl

@[simp] theorem fireStep_player_vx (now : ℤ) (p : Player) (input : PlayerInput) :
    (fireStep now p input).player.vx = p.vx := by
  simp only [fireStep]
  repeat' split
  all_goals rfl

@[simp] theorem fireStep_player_vy (now : ℤ) (p : Player) (input : PlayerInput) :
    (fireStep now p input).player.vy = p.vy := by
  simp only [fireStep]
  repeat' split
  all_goals rfl

@[simp] theorem fireStep_player_states (now : ℤ) (p : Player) (input : PlayerInput) :
    (fireStep now p input).player.states = p.states := by
  simp only [fireStep]
  repeat' split
  all_goals rfl

@[simp] theorem fireStep_player_hp (now : ℤ) (p : Player) (input : PlayerInput) :
    (fireStep now p input).player.hp = p.hp := by
  simp only [fireStep]
  repeat' split
  all_goals rfl

@[simp] theorem fireStep_exit (now : ℤ) (p : Player) (input : PlayerInput) :
    (fireStep now p input).exit = UpdateExit.normal := by
  simp only [fireStep]
  repeat' split
  all_goals rfl

@[simp] theorem respawnPlayer_hp (m : MapData) (now : ℤ) (spawn : ℚ × ℚ) (p : Player) :
    (respawnPlayer m now spawn p).hp = 100 := rfl

theorem findFloorHitRows_some (m : MapData) (feetX startY endY : ℚ) (rows : List ℤ) (y : ℤ)
    (h : findFloorHitRows m feetX startY endY rows = some y) :
    (y : ℚ) < startY ∧ endY ≤ (y : ℚ) := by
  induction rows with
  | nil => simp [findFloorHitRows] at h
  | cons checkY rest ih =>
    rw [findFloorHitRows] at h
    split at h
    · rename_i hc
      obtain rfl : checkY = y := Option.some.inj h
      exact ⟨hc.2.1, hc.2.2⟩
    · exact ih h

theorem findFloorHit_some (m : MapData) (feetX startY endY : ℚ) (y : ℤ)
    (h : findFloorHit m feetX startY endY = some y) :
    (y : ℚ) < startY ∧ endY ≤ (y : ℚ) :=
  findFloorHitRows_some m feetX startY endY _ y h

theorem integratePosition_feetX_lb (m : MapData) (p : Player) (dt : ℚ) :
    1/2 ≤ (integratePosition m p dt).feetX := by
  simp only [integratePosition]
  exact le_max_left _ _

theorem integratePosition_feetX_ub (m : MapData) (p : Player) (dt : ℚ)
    (hw : (1 : ℚ) ≤ (m.width : ℚ)) :
    (integratePosition m p dt).feetX ≤ (m.width : ℚ) - 1/2 := by
  simp only [integratePosition]
  exact max_le (by linarith) (min_le_left _ _)

theorem integratePosition_feetY_lb (m : MapData) (p : Player) (dt : ℚ) :
    1/2 ≤ (integratePosition m p dt).feetY := by
  simp only [integratePosition]
  exact le_max_left _ _

theorem integratePosition_feetY_ub (m : MapData) (p : Player) (dt : ℚ)
    (hh : (1 : ℚ) ≤ (m.height : ℚ)) :
    (integratePosition m p dt).feetY ≤ (m.height : ℚ) := by
  simp only [integratePosition]
  exact max_le (by linarith) (min_le_left _ _)

theorem p2C1_eq : p2C1 = { pC1 with vx := 0, vy := -25/4 } := by
  simp only [p2C1, handleVerticalMovement, handleHorizontalMovement, noInput, hasState, pC1,
    GRAVITY]
  norm_num

theorem p4C1_eq :
    p4C1 = { pC1 with vx := 0, vy := -25/4, feetY := 159/80, states := [PState.air] } := by
  rw [p4C1, p2C1_eq]
  simp only [reclassify, integratePosition, classifyPlayerState, isPlayerOnGround,
    isPlayerOnLadder, tileAt, isGroundTile, m1, pC1]
  norm_num [Int.floor_eq_iff]

theorem findFloorHit_C1 : findFloorHit m1 p4C1.feetX p2C1.feetY p4C1.feetY = some 2 := by
  have ht2 : tileAt m1 (3/2) ((2:ℤ):ℚ) = Tile.floor := by
    simp only [tileAt, m1]
    norm_num [Int.floor_intCast]
    all_goals decide
  rw [p2C1_eq, p4C1_eq]
  simp only [findFloorHit, pC1]
  rw [show ⌊(23:ℚ)/10⌋ = 2 by norm_num, show ⌊(159:ℚ)/80⌋ = 1 by norm_num]
  rw [show rowsToCheck 2 1 = [2, 1] by decide]
  rw [findFloorHitRows, if_pos ⟨by rw [ht2]; rfl, by norm_num, by norm_num⟩]

/-- Claim C1, counterexample: the falling player `pC1` crosses the floor
row of `m1` with impact speed `25/4`, strictly below the lethal-velocity
threshold `8`, so under the claimed impact-speed rule it would land
safely with `vy = 0` and Ground state; the code instead takes the
fall-death respawn path, because the recorded fall height
`3.5 − 1.9875` exceeds 1 tile. -/
theorem impactSpeedModelFails :
    p2C1.vy = -25/4 ∧ |p2C1.vy| < lethalVelocity ∧
    findFloorHit m1 p4C1.feetX p2C1.feetY p4C1.feetY = some 2 ∧
    (updatePlayer m1 0 (3/2, 1) pC1 noInput (1/20)).exit = UpdateExit.fallDeath := by
  have hvy : p2C1.vy = -25/4 := by rw [p2C1_eq]
  have habs : |p2C1.vy| < lethalVelocity := by
    rw [hvy, abs_of_nonpos (by norm_num)]
    norm_num [lethalVelocity]
  refine ⟨hvy, habs, findFloorHit_C1, ?_⟩
  have hup : updatePlayer m1 0 (3/2, 1) pC1 noInput (1/20) =
      updatePlayerAfterMove m1 0 (3/2, 1) p2C1 noInput (1/20) := rfl
  have hp4 : reclassify m1 (integratePosition m1 p2C1 (1/20)) = p4C1 := rfl
  rw [hup]
  simp only [updatePlayerAfterMove, hp4]
  rw [if_neg (by rw [p2C1_eq, p4C1_eq]; norm_num [pC1])]
  simp only [landingStep]
  rw [if_pos ⟨by rw [p4C1_eq]; simp [hasState, pC1], by rw [p4C1_eq]; norm_num [pC1]⟩]
  rw [findFloorHit_C1]
  dsimp only
  rw [if_pos (by rw [p4C1_eq]; norm_num [fallDeathCheck, pC1])]

theorem p2C3_eq :
    handleVerticalMovement m3 (handleHorizontalMovement m3 pC3 fireInput) fireInput (1/20) =
      pC3 := by
  simp [handleVerticalMovement, handleHorizontalMovement, fireInput, hasState, pC3]

theorem p4C3_eq : reclassify m3 (integratePosition m3 pC3 (1/20)) = pC3 := by
  simp only [reclassify, integratePosition, classifyPlayerState, isPlayerOnGround,
    isPlayerOnLadder, tileAt, isGroundTile, m3, pC3]
  norm_num [Int.floor_eq_iff]

/-- Claim C3, failing input: `pC3` is inside its spawn-protection window
(`now = 0 < spawnProtectedUntil = 3000`) with an elapsed fire cooldown,
yet its fire intent creates a projectile: `updatePlayer` gates firing
only by `canFireAt`, never by spawn protection. -/
theorem firesDuringSpawnProtection :
    (0 : ℤ) < pC3.spawnProtectedUntil ∧
    (updatePlayer m3 0 (3/2, 1) pC3 fireInput (1/20)).fired =
      some (createProjectile 0 pC3) := by
  constructor
  · norm_num [pC3]
  · have htrack : trackFalling pC3 = pC3 := by
      simp [trackFalling, hasState, pC3]
    simp only [updatePlayer, p2C3_eq, updatePlayerAfterMove, p4C3_eq]
    rw [if_neg (by norm_num [pC3])]
    simp only [landingStep]
    rw [if_neg (by simp [hasState, pC3])]
    rw [htrack]
    simp only [fireStep]
    rw [if_pos ⟨rfl, by norm_num [pC3]⟩]

theorem p2C7_eq :
    handleVerticalMovement m3 (handleHorizontalMovement m3 pC7 rightInput) rightInput (1/20) =
      { pC7 with vx := 4 } := by
  have ht : tileAt m3 (12/5) 1 = Tile.floor := by
    simp only [tileAt, m3]
    norm_num [Int.floor_eq_iff]
  simp [handleVerticalMovement, handleHorizontalMovement, rightInput, hasState, canMoveRight,
    isPlayerOnGround, ht, isGroundTile, pC7, pC3, MOVE_SPEED]

theorem p4C7_eq :
    reclassify m3 (integratePosition m3 { pC7 with vx := 4 } (1/20)) =
      { pC7 with vx := 4, feetX := 5/2 } := by
  simp only [reclassify, integratePosition, classifyPlayerState, isPlayerOnGround,
    isPlayerOnLadder, tileAt, isGroundTile, m3, pC7, pC3]
  norm_num [Int.floor_eq_iff]

/-- Claim C7, failing input: `pC7` walks right into the right map
boundary of `m3`; the integration step clamps `feetX` to
`width − 0.5 = 2.5` (the unclamped target 2.6 exceeds it, first
conjunct), but the tick leaves `vx` at `MOVE_SPEED = 4` instead of
zeroing it. -/
theorem boundaryClampKeepsVelocity :
    (m3.width : ℚ) - 1/2 <
      pC7.feetX +
        (handleVerticalMovement m3 (handleHorizontalMovement m3 pC7 rightInput) rightInput
          (1/20)).vx * (1/20) ∧
    (updatePlayer m3 0 (3/2, 1) pC7 rightInput (1/20)).player.feetX = (m3.width : ℚ) - 1/2 ∧
    (updatePlayer m3 0 (3/2, 1) pC7 rightInput (1/20)).player.vx = MOVE_SPEED := by
  have hupd : updatePlayer m3 0 (3/2, 1) pC7 rightInput (1/20) =
      fireStep 0 (trackFalling { pC7 with vx := 4, feetX := 5/2 }) rightInput := by
    simp only [updatePlayer, p2C7_eq, updatePlayerAfterMove, p4C7_eq]
    rw [if_neg (by norm_num [pC7, pC3])]
    simp only [landingStep]
    rw [if_neg (by simp [hasState, pC7, pC3])]
  refine ⟨by rw [p2C7_eq]; norm_num [pC7, pC3, m3], ?_, ?_⟩
  · rw [hupd]
    simp [pC7, pC3, m3]
    norm_num
  · rw [hupd]
    simp [pC7, pC3, MOVE_SPEED]

/-- Claim C5, counterexample: `pC5` stands mid-climb on the `LadderUp`
tile of `m5` with fractional feet offset 0.5, and the classification
yields only Ladder — so membership of the feet tile in
{LadderTop, LadderUp, LadderCross} alone does not make Ground and Ladder
simultaneously true. -/
theorem groundLadderIffFails :
    tileAt m5 pC5.feetX pC5.feetY = Tile.ladderUp ∧
    classifyPlayerState m5 pC5 = [PState.ladder] ∧
    PState.ground ∉ classifyPlayerState m5 pC5 := by
  have ht : tileAt m5 pC5.feetX pC5.feetY = Tile.ladderUp := by
    simp only [tileAt, m5, pC5, pC3]
    norm_num [Int.floor_eq_iff]
  have hc : classifyPlayerState m5 pC5 = [PState.ladder] := by
    simp only [classifyPlayerState, isPlayerOnGround, isPlayerOnLadder, ht, isGroundTile]
    norm_num [Int.floor_eq_iff, pC5, pC3]
  exact ⟨ht, hc, by rw [hc]; decide⟩

/-- Membership of Ground in the classified state set is exactly the
`isPlayerOnGround` test. -/
theorem mem_classify_ground (m : MapData) (p : Player) :
    PState.ground ∈ classifyPlayerState m p ↔ isPlayerOnGround m p = true := by
  unfold classifyPlayerState
  by_cases hg : isPlayerOnGround m p = true <;> by_cases hl : isPlayerOnLadder m p = true <;>
    simp [hg, hl]

/-- Membership of Ladder in the classified state set is exactly the
`isPlayerOnLadder` test. -/
theorem mem_classify_ladder (m : MapData) (p : Player) :
    PState.ladder ∈ classifyPlayerState m p ↔ isPlayerOnLadder m p = true := by
  unfold classifyPlayerState
  by_cases hg : isPlayerOnGround m p = true <;> by_cases hl : isPlayerOnLadder m p = true <;>
    simp [hg, hl]

/-- Claim C5, amended: Ground and Ladder are simultaneously in the
classified state set iff the feet tile is LadderTop, LadderUp or
LadderCross AND the feet have settled onto the cell (fractional vertical
offset below 0.1, the condition of `isPlayerOnGround`). -/
theorem groundLadderIffSettled (m : MapData) (p : Player) :
    (PState.ground ∈ classifyPlayerState m p ∧ PState.ladder ∈ classifyPlayerState m p) ↔
      ((tileAt m p.feetX p.feetY = Tile.ladderTop ∨ tileAt m p.feetX p.feetY = Tile.ladderUp ∨
        tileAt m p.feetX p.feetY = Tile.ladderCross) ∧ p.feetY - ⌊p.feetY⌋ < 1/10) := by
  rw [mem_classify_ground, mem_classify_ladder]
  unfold isPlayerOnGround isPlayerOnLadder
  rcases h : tileAt m p.feetX p.feetY with _ | _ | _ | _ | _ | _ <;>
    simp only [h, isGroundTile, Bool.and_eq_true, decide_eq_true_eq, Bool.true_and,
      Bool.false_and] <;>
    simp

/-- Claim C6: on a `LadderUp` feet tile, the descent permission is
denied exactly when one nominal tick of ladder descent
(`LADDER_SPEED / tickHz` tiles) would put the feet into a strictly lower
grid row, and the ascent permission is always granted. -/
theorem ladderUpClimbGates (m : MapData) (p : Player)
    (h : tileAt m p.feetX p.feetY = Tile.ladderUp) :
    (canMoveDown m p = false ↔ ⌊p.feetY - LADDER_SPEED / tickHz⌋ < ⌊p.feetY⌋) ∧
    canMoveUp m p = true := by
  constructor
  · simp only [canMoveDown, if_pos h]
    simp [not_le]
  · simp only [canMoveUp, h]

/-- Witness for C6 at `pC6` on `m5`: feet at `y = 1.05`, one nominal
tick of descent reaches `y = 0.95` in row 0 < 1, so descent is denied
while ascent is granted. -/
theorem ladderUpClimbGates_witness :
    (canMoveDown m5 pC6 = false ↔ ⌊pC6.feetY - LADDER_SPEED / tickHz⌋ < ⌊pC6.feetY⌋) ∧
    canMoveUp m5 pC6 = true :=
  ladderUpClimbGates m5 pC6
    (by simp only [tileAt, m5, pC6, pC3]; norm_num [Int.floor_eq_iff])

@[simp] theorem moveProjectile_feetX (pr : Projectile) (dt : ℚ) :
    (moveProjectile pr dt).feetX = pr.feetX + pr.vx * dt := rfl

@[simp] theorem moveProjectile_feetY (pr : Projectile) (dt : ℚ) :
    (moveProjectile pr dt).feetY = pr.feetY + pr.vy * dt := rfl

@[simp] theorem moveProjectile_vx (pr : Projectile) (dt : ℚ) :
    (moveProjectile pr dt).vx = pr.vx := rfl

@[simp] theorem moveProjectile_vy (pr : Projectile) (dt : ℚ) :
    (moveProjectile pr dt).vy = pr.vy := rfl

@[simp] theorem moveProjectile_ownerId (pr : Projectile) (dt : ℚ) :
    (moveProjectile pr dt).ownerId = pr.ownerId := rfl

@[simp] theorem moveProjectile_createdAt (pr : Projectile) (dt : ℚ) :
    (moveProjectile pr dt).createdAt = pr.createdAt := rfl

theorem runC2_step (now : ℤ) (rest : List ℤ) (pr : Projectile)
    (hY : pr.feetY = 23/10) (hvy : pr.vy = 0) (hc : pr.createdAt = 0)
    (ha0 : 0 ≤ pr.feetX + pr.vx * (1/20)) (ha1 : pr.feetX + pr.vx * (1/20) ≤ 12)
    (hnow : now ≤ 3000) :
    runProjectile m2 [] (1/20) (now :: rest) pr =
      runProjectile m2 [] (1/20) rest (moveProjectile pr (1/20)) := by
  have hb : projectileOutOfBounds m2 (moveProjectile pr (1/20)) = false := by
    simp only [projectileOutOfBounds, moveProjectile_feetX, moveProjectile_feetY, hY, hvy, m2,
      decide_eq_false_iff_not]
    push_neg
    refine ⟨ha0, by norm_num [ha1], by norm_num, by norm_num⟩
  rw [runProjectile]
  simp only [stepProjectile, hb, Bool.false_eq_true, if_false, findHitPlayer, List.find?_nil,
    moveProjectile_createdAt, hc]
  rw [if_neg (by omega)]

/-- Claim C2, failing input: the projectile `prC2` is fired rightward
from `(5.0, 2.3)` at 6 tiles/s on `m2`, whose tile at the swept row and
column 8 is Floor; the code checks no terrain at all, so the projectile
survives all 14 ticks and stands at `feetX = 9.2`, past the far edge of
that Floor tile, still alive for the next snapshot instead of having
been removed when its swept path first touched column 8. -/
theorem projectileTunnelsThroughFloor :
    tileAt m2 (17/2) prC2.feetY = Tile.floor ∧ prC2.feetX < 8 ∧
    runProjectile m2 [] (1/20) ticksC2 prC2 = some { prC2 with feetX := 46/5 } ∧
    (9 : ℚ) < 46/5 := by
  refine ⟨?_, by norm_num [prC2], ?_, by norm_num⟩
  · simp only [tileAt, m2, prC2]
    norm_num [Int.floor_eq_iff]
    all_goals decide
  · simp only [ticksC2]
    repeat
      rw [runC2_step _ _ _ (by norm_num [prC2]) (by norm_num [prC2]) (by norm_num [prC2])
        (by norm_num [prC2]) (by norm_num [prC2]) (by norm_num)]
    rw [runProjectile]
    norm_num [prC2, moveProjectile]

/-- Claim C1, amended: when a falling actor's integration path crosses a
ground-capable row, the actor dies (respawn path) exactly when the
recorded fall height — `fallingFromY` minus the clamped post-integration
`feetY` — exceeds 1.0 tile; otherwise `feetY` snaps to the crossed row,
`vy` is zeroed and the state is forced to Ground. -/
theorem landingUsesFallHeight (m : MapData) (now : ℤ) (spawn : ℚ × ℚ) (p : Player)
    (input : PlayerInput) (dt : ℚ) (p2 p4 : Player) (y : ℤ)
    (hp2 : p2 = handleVerticalMovement m (handleHorizontalMovement m p input) input dt)
    (hp4 : p4 = reclassify m (integratePosition m p2 dt))
    (hb : ¬(p2.feetY + p2.vy * dt ≤ 1/2 ∧ p4.vy < 0))
    (hair : hasState p4 PState.air = true) (hvy : p4.vy < 0)
    (hfind : findFloorHit m p4.feetX p2.feetY p4.feetY = some y) :
    (fallDeathCheck p4 = true →
      (updatePlayer m now spawn p input dt).exit = UpdateExit.fallDeath) ∧
    (fallDeathCheck p4 = false →
      (updatePlayer m now spawn p input dt).player.feetY = (y : ℚ) ∧
      (updatePlayer m now spawn p input dt).player.vy = 0 ∧
      (updatePlayer m now spawn p input dt).player.states = [PState.ground] ∧
      (updatePlayer m now spawn p input dt).exit = UpdateExit.normal) := by
  have hupd : updatePlayer m now spawn p input dt =
      updatePlayerAfterMove m now spawn p2 input dt := by rw [hp2]; rfl
  rw [hupd]
  simp only [updatePlayerAfterMove, ← hp4]
  rw [if_neg hb]
  simp only [landingStep]
  rw [if_pos ⟨hair, hvy⟩, hfind]
  dsimp only
  constructor
  · intro hd
    rw [if_pos hd]
  · intro hd
    rw [if_neg (by simp [hd])]
    refine ⟨?_, ?_, ?_, ?_⟩ <;> simp [hasState, trackFalling]

/-- Claim C4: for every tick that returns through the normal path (no
boundary respawn and no fall death), the resulting feet coordinates obey
`0.5 ≤ feetX ≤ width − 0.5` and `0.5 ≤ feetY ≤ height`, given a map of
positive size and an in-range starting `feetY`. -/
theorem feetBoundsAfterIntegration (m : MapData) (now : ℤ) (spawn : ℚ × ℚ) (p : Player)
    (input : PlayerInput) (dt : ℚ) (hw : 1 ≤ m.width) (hh : 1 ≤ m.height)
    (hY : p.feetY ≤ (m.height : ℚ))
    (hexit : (updatePlayer m now spawn p input dt).exit = UpdateExit.normal) :
    1/2 ≤ (updatePlayer m now spawn p input dt).player.feetX ∧
    (updatePlayer m now spawn p input dt).player.feetX ≤ (m.width : ℚ) - 1/2 ∧
    1/2 ≤ (updatePlayer m now spawn p input dt).player.feetY ∧
    (updatePlayer m now spawn p input dt).player.feetY ≤ (m.height : ℚ) := by
  have hw' : (1 : ℚ) ≤ (m.width : ℚ) := by exact_mod_cast hw
  have hh' : (1 : ℚ) ≤ (m.height : ℚ) := by exact_mod_cast hh
  set p2 := handleVerticalMovement m (handleHorizontalMovement m p input) input dt with hp2
  have hp2Y : p2.feetY = p.feetY := by rw [hp2]; simp
  have hupd : updatePlayer m now spawn p input dt =
      updatePlayerAfterMove m now spawn p2 input dt := rfl
  rw [hupd] at hexit ⊢
  set p4 := reclassify m (integratePosition m p2 dt) with hp4
  have hx1 : 1/2 ≤ p4.feetX := by
    rw [hp4, reclassify_feetX]; exact integratePosition_feetX_lb m p2 dt
  have hx2 : p4.feetX ≤ (m.width : ℚ) - 1/2 := by
    rw [hp4, reclassify_feetX]; exact integratePosition_feetX_ub m p2 dt hw'
  have hy1 : 1/2 ≤ p4.feetY := by
    rw [hp4, reclassify_feetY]; exact integratePosition_feetY_lb m p2 dt
  have hy2 : p4.feetY ≤ (m.height : ℚ) := by
    rw [hp4, reclassify_feetY]; exact integratePosition_feetY_ub m p2 dt hh'
  simp only [updatePlayerAfterMove, ← hp4] at hexit ⊢
  by_cases hcond : p2.feetY + p2.vy * dt ≤ 1/2 ∧ p4.vy < 0
  · rw [if_pos hcond] at hexit
    simp at hexit
  · rw [if_neg hcond] at hexit ⊢
    simp only [landingStep] at hexit ⊢
    by_cases hair : hasState p4 PState.air = true ∧ p4.vy < 0
    · rw [if_pos hair] at hexit ⊢
      rcases hfind : findFloorHit m p4.feetX p2.feetY p4.feetY with _ | yy
      · rw [hfind] at hexit
        dsimp only at hexit ⊢
        simp only [fireStep_player_feetX, fireStep_player_feetY, trackFalling_feetX,
          trackFalling_feetY]
        exact ⟨hx1, hx2, hy1, hy2⟩
      · rw [hfind] at hexit
        dsimp only at hexit ⊢
        by_cases hdeath : fallDeathCheck p4 = true
        · rw [if_pos hdeath] at hexit
          simp at hexit
        · rw [if_neg hdeath] at hexit ⊢
          obtain ⟨hlt, hle⟩ := findFloorHit_some m p4.feetX p2.feetY p4.feetY yy hfind
          simp only [fireStep_player_feetX, fireStep_player_feetY, trackFalling_feetX,
            trackFalling_feetY]
          refine ⟨hx1, hx2, le_trans hy1 hle, ?_⟩
          have hyp : (yy : ℚ) < p.feetY := hp2Y ▸ hlt
          linarith
    · rw [if_neg hair] at hexit ⊢
      simp only [fireStep_player_feetX, fireStep_player_feetY, trackFalling_feetX,
        trackFalling_feetY]
      exact ⟨hx1, hx2, hy1, hy2⟩

theorem updC4_eq :
    updatePlayer m3 0 (3/2, 1) pC3 noInput (1/20) = fireStep 0 (trackFalling pC3) noInput := by
  have hmove :
      handleVerticalMovement m3 (handleHorizontalMovement m3 pC3 noInput) noInput (1/20) =
        pC3 := by
    simp [handleVerticalMovement, handleHorizontalMovement, noInput, hasState, pC3]
  have h0 : updatePlayer m3 0 (3/2, 1) pC3 noInput (1/20) =
      updatePlayerAfterMove m3 0 (3/2, 1) pC3 noInput (1/20) := by
    conv_lhs =>
      rw [show updatePlayer m3 0 (3/2, 1) pC3 noInput (1/20) =
        updatePlayerAfterMove m3 0 (3/2, 1)
          (handleVerticalMovement m3 (handleHorizontalMovement m3 pC3 noInput) noInput (1/20))
          noInput (1/20) from rfl, hmove]
  rw [h0]
  simp only [updatePlayerAfterMove, p4C3_eq]
  rw [if_neg (by norm_num [pC3])]
  simp only [landingStep]
  rw [if_neg (by simp [hasState, pC3])]

/-- Witness for C4 at the stationary grounded player `pC3` on `m3`. -/
theorem feetBoundsAfterIntegration_witness :
    1/2 ≤ (updatePlayer m3 0 (3/2, 1) pC3 noInput (1/20)).player.feetX ∧
    (updatePlayer m3 0 (3/2, 1) pC3 noInput (1/20)).player.feetX ≤ (m3.width : ℚ) - 1/2 ∧
    1/2 ≤ (updatePlayer m3 0 (3/2, 1) pC3 noInput (1/20)).player.feetY ∧
    (updatePlayer m3 0 (3/2, 1) pC3 noInput (1/20)).player.feetY ≤ (m3.height : ℚ) :=
  feetBoundsAfterIntegration m3 0 (3/2, 1) pC3 noInput (1/20) (by norm_num [m3])
    (by norm_num [m3]) (by norm_num [pC3, m3]) (by rw [updC4_eq]; simp)

/-- Claim C8: a projectile overlap with a spawn-protected target changes
neither the target (health included) nor the shooter (frags included),
while the projectile is still removed through the hit outcome. -/
theorem protectedHitNoEffect (m : MapData) (now : ℤ) (spawn : ℚ × ℚ) (players : List Player)
    (pr : Projectile) (dt : ℚ) (target : Player) (shooter : Option Player)
    (hbound : projectileOutOfBounds m (moveProjectile pr dt) = false)
    (hfind : findHitPlayer players (moveProjectile pr dt) = some target)
    (hprot : now < target.spawnProtectedUntil) :
    hitPlayer m now spawn target shooter = (target, shooter) ∧
    (stepProjectile m now players pr dt).2 = ProjOutcome.hitTarget target := by
  constructor
  · simp only [hitPlayer]
    rw [if_pos hprot]
  · simp only [stepProjectile, hbound, Bool.false_eq_true, if_false, hfind]

/-- Witness for C8: the projectile `prC8` of shooter `sC8` overlaps the
protected target `tC8` during the tick; nothing changes but the hit
outcome still consumes the projectile. -/
theorem protectedHitNoEffect_witness :
    hitPlayer m3 0 (3/2, 1) tC8 (some sC8) = (tC8, some sC8) ∧
    (stepProjectile m3 0 [tC8] prC8 (1/20)).2 = ProjOutcome.hitTarget tC8 :=
  protectedHitNoEffect m3 0 (3/2, 1) [tC8] prC8 (1/20) tC8 (some sC8)
    (by norm_num [projectileOutOfBounds, moveProjectile, prC8, m3, decide_eq_false_iff_not,
      not_or])
    (by norm_num [findHitPlayer, List.find?, moveProjectile, prC8, tC8, abs_lt]; rfl)
    (by norm_num [tC8])

theorem updatePlayer_hp_cases (m : MapData) (now : ℤ) (spawn : ℚ × ℚ) (p : Player)
    (input : PlayerInput) (dt : ℚ) :
    (updatePlayer m now spawn p input dt).player.hp = p.hp ∨
    (updatePlayer m now spawn p input dt).player.hp = 100 := by
  have hupd : updatePlayer m now spawn p input dt =
      updatePlayerAfterMove m now spawn
        (handleVerticalMovement m (handleHorizontalMovement m p input) input dt) input dt := rfl
  rw [hupd]
  simp only [updatePlayerAfterMove, landingStep]
  repeat' split
  all_goals simp

/-- Claim C9: combat resolution and the per-tick update both keep a live
player's hp in (0, 100]: a protected hit changes nothing, an ordinary
hit subtracts 10 and a death immediately respawns at hp = 100, and the
movement pipeline never writes hp except through respawn. -/
theorem hpWithinRange (m : MapData) (now : ℤ) (spawn : ℚ × ℚ) (t : Player)
    (s : Option Player) (p : Player) (input : PlayerInput) (dt : ℚ)
    (h1 : 0 < t.hp) (h2 : t.hp ≤ 100) (h3 : 0 < p.hp) (h4 : p.hp ≤ 100) :
    (0 < (hitPlayer m now spawn t s).1.hp ∧ (hitPlayer m now spawn t s).1.hp ≤ 100) ∧
    (0 < (updatePlayer m now spawn p input dt).player.hp ∧
      (updatePlayer m now spawn p input dt).player.hp ≤ 100) := by
  constructor
  · simp only [hitPlayer]
    split
    · exact ⟨h1, h2⟩
    · split
      · refine ⟨?_, ?_⟩ <;> simp
      · rename_i hgt
        constructor
        · simp only []
          omega
        · simp only []
          omega
  · rcases updatePlayer_hp_cases m now spawn p input dt with h | h <;> rw [h]
    · exact ⟨h3, h4⟩
    · norm_num

/-- Witness for C9 at the full-health players `tC8` and `pC3`. -/
theorem hpWithinRange_witness :
    (0 < (hitPlayer m3 0 (3/2, 1) tC8 (some sC8)).1.hp ∧
      (hitPlayer m3 0 (3/2, 1) tC8 (some sC8)).1.hp ≤ 100) ∧
    (0 < (updatePlayer m3 0 (3/2, 1) pC3 noInput (1/20)).player.hp ∧
      (updatePlayer m3 0 (3/2, 1) pC3 noInput (1/20)).player.hp ≤ 100) :=
  hpWithinRange m3 0 (3/2, 1) tC8 (some sC8) pC3 noInput (1/20) (by norm_num [tC8])
    (by norm_num [tC8]) (by norm_num [pC3]) (by norm_num [pC3])

/-- Claim C10: for a supported actor (not in Air), an intent with both
moveUp and moveDown set yields no vertical motion: `vy` stays 0 for the
whole tick, `feetY` is unchanged, and the tick exits normally. -/
theorem bothVerticalInputsNoMotion (m : MapData) (now : ℤ) (spawn : ℚ × ℚ) (p : Player)
    (input : PlayerInput) (dt : ℚ)
    (hair : hasState p PState.air = false)
    (hup : input.moveUp = true) (hdn : input.moveDown = true)
    (hlo : 1/2 ≤ p.feetY) (hhi : p.feetY ≤ (m.height : ℚ)) :
    (updatePlayer m now spawn p input dt).player.vy = 0 ∧
    (updatePlayer m now spawn p input dt).player.feetY = p.feetY ∧
    (updatePlayer m now spawn p input dt).exit = UpdateExit.normal := by
  have hairH : hasState (handleHorizontalMovement m p input) PState.air = false := by
    simp only [hasState, handleHorizontalMovement_states]
    simpa [hasState] using hair
  have h2 : handleVerticalMovement m (handleHorizontalMovement m p input) input dt =
      { handleHorizontalMovement m p input with vy := 0 } := by
    simp [handleVerticalMovement, hairH, hup, hdn]
  have hupd : updatePlayer m now spawn p input dt =
      updatePlayerAfterMove m now spawn { handleHorizontalMovement m p input with vy := 0 }
        input dt := by
    conv_lhs =>
      rw [show updatePlayer m now spawn p input dt =
        updatePlayerAfterMove m now spawn
          (handleVerticalMovement m (handleHorizontalMovement m p input) input dt) input dt
        from rfl, h2]
  rw [hupd]
  set q : Player := { handleHorizontalMovement m p input with vy := 0 } with hq
  have hqY : q.feetY = p.feetY := by rw [hq]; simp
  have hqvy : q.vy = 0 := rfl
  set p4 := reclassify m (integratePosition m q dt) with hp4
  have hp4vy : p4.vy = 0 := by rw [hp4, reclassify_vy, integratePosition_vy, hqvy]
  have hp4Y : p4.feetY = p.feetY := by
    rw [hp4, reclassify_feetY]
    simp only [integratePosition, handleHorizontalMovement_feetY, hqY, hqvy, zero_mul, add_zero]
    rw [min_eq_right hhi, max_eq_right hlo]
  simp only [updatePlayerAfterMove, ← hp4]
  rw [if_neg fun hc => absurd (hp4vy ▸ hc.2) (lt_irrefl 0)]
  simp only [landingStep]
  rw [if_neg fun hc => absurd (hp4vy ▸ hc.2) (lt_irrefl 0)]
  refine ⟨?_, ?_, ?_⟩
  · simp [hp4vy]
  · simp [hp4Y]
  · simp

/-- Witness for C10 at the grounded player `pC3` on `m3` with both
vertical intents set. -/
theorem bothVerticalInputsNoMotion_witness :
    (updatePlayer m3 0 (3/2, 1) pC3 bothInput (1/20)).player.vy = 0 ∧
    (updatePlayer m3 0 (3/2, 1) pC3 bothInput (1/20)).player.feetY = pC3.feetY ∧
    (updatePlayer m3 0 (3/2, 1) pC3 bothInput (1/20)).exit = UpdateExit.normal :=
  bothVerticalInputsNoMotion m3 0 (3/2, 1) pC3 bothInput (1/20)
    (by simp [hasState, pC3]) rfl rfl (by norm_num [pC3]) (by norm_num [pC3, m3])

/-- Witness for the amended C1 at the falling player `pC1` on `m1`
(there the fall-height check is positive, so the tick exits through the
fall-death path). -/
theorem landingUsesFallHeight_witness :
    (fallDeathCheck p4C1 = true →
      (updatePlayer m1 0 (3/2, 1) pC1 noInput (1/20)).exit = UpdateExit.fallDeath) ∧
    (fallDeathCheck p4C1 = false →
      (updatePlayer m1 0 (3/2, 1) pC1 noInput (1/20)).player.feetY = ((2 : ℤ) : ℚ) ∧
      (updatePlayer m1 0 (3/2, 1) pC1 noInput (1/20)).player.vy = 0 ∧
      (updatePlayer m1 0 (3/2, 1) pC1 noInput (1/20)).player.states = [PState.ground] ∧
      (updatePlayer m1 0 (3/2, 1) pC1 noInput (1/20)).exit = UpdateExit.normal) :=
  landingUsesFallHeight m1 0 (3/2, 1) pC1 noInput (1/20) p2C1 p4C1 2 rfl rfl
    (by rw [p2C1_eq, p4C1_eq]; norm_num [pC1])
    (by rw [p4C1_eq]; simp [hasState, pC1])
    (by rw [p4C1_eq]; norm_num [pC1])
    findFloorHit_C1

end Platformer
